import Mathlib

/-!
Verification of the NASS USDA API client (`src/flask-server/nass-usda/api.py`).

The file embeds, shallowly, the response-interpretation logic of `USDAApi`:
the decoded JSON body is a `Json` value, the raw HTTP response is represented
by its status code, and each Python `raise` becomes a constructor of the
`NassError` taxonomy.  The HTTP transport and the JSON decoder are external
collaborators and are not modelled; the embedding starts from the decoded
body, exactly where `_handle_response_data` starts.
-/

set_option autoImplicit false

namespace NassUsda

/-- Decoded JSON values.  Numbers are modelled as integers (the service's
`count` field is an integer or a decimal string; no claim involves fractional
numbers).  Objects are association lists in insertion order, keys unique. -/
inductive Json where
  | null
  | bool (b : Bool)
  | num (n : Int)
  | str (s : String)
  | arr (elems : List Json)
  | obj (fields : List (String × Json))

/-- Association-list lookup; models Python `d[k]` succeeding on a dict.
First match wins (dict keys are unique, so this is the dict lookup). -/
def dictLookup : List (String × Json) → String → Option Json
  | [], _ => none
  | p :: rest, k => if p.1 = k then some p.2 else dictLookup rest k

/-- Models the Python subscript `data[k]` as it is used in
`_handle_response_data`: on a dict it returns the value when the key is
present (`KeyError` otherwise), and on any non-dict JSON value it raises
`TypeError`.  Both exceptions are caught by the caller, so the embedding
returns `none` in all of those cases. -/
def getKey : Json → String → Option Json
  | Json.obj fields, k => dictLookup fields k
  | _, _ => none

/-- Models Python `d.update({k: v})` on an insertion-ordered dict with unique
keys: replace the value in place when the key is present, append otherwise. -/
def dictUpdate : List (String × Json) → String → Json → List (String × Json)
  | [], k, v => [(k, v)]
  | p :: rest, k, v => if p.1 = k then (k, v) :: rest else p :: dictUpdate rest k v

/-- Model of Python `s.startswith(p)`: `p` is a character-prefix of `s`. -/
def pyStartsWith (s p : String) : Bool :=
  p.data.isPrefixOf s.data

/-- One field of Python `s.split('=')`, accumulating characters until the
separator.  `split` on a one-character separator cuts at every occurrence and
keeps empty fields, so `""` gives `[""]` and `"a==b"` gives `["a","","b"]`. -/
def pySplitEq : List Char → List (List Char)
  | [] => [[]]
  | c :: rest =>
      let r := pySplitEq rest
      if c = '=' then [] :: r
      else
        match r with
        | [] => [[c]]
        | h :: t => (c :: h) :: t

/-- Models `message.split('=')[1]` under the surrounding
`try ... except (IndexError, ValueError)`: the field between the first and
second `'='` when the message contains at least one `'='`, and `none`
(the `IndexError` branch) otherwise. -/
def splitSecondField (m : String) : Option String :=
  match pySplitEq m.data with
  | _ :: x :: _ => some (String.mk x)
  | _ => none

/-- ASCII whitespace stripped by Python `int()` before parsing. -/
def isPyWhitespace (c : Char) : Bool :=
  c == ' ' || c == '\t' || c == '\n' || c == '\r' || c == '\x0b' || c == '\x0c'

/-- Value of a nonempty all-digit character list, `none` otherwise. -/
def digitsVal? (l : List Char) : Option Nat :=
  match l with
  | [] => none
  | _ =>
      if l.all (fun c => c.isDigit) then
        some (l.foldl (fun a c => a * 10 + (c.toNat - 48)) 0)
      else none

/-- Model of Python `int()` applied to a string: optional surrounding
whitespace, an optional sign, then one or more decimal digits.  (Underscore
digit separators and non-ASCII digits are not modelled; no claim involves
them.)  `none` is the `ValueError` case. -/
def pyInt? (s : String) : Option Int :=
  match (s.data.dropWhile isPyWhitespace).reverse.dropWhile isPyWhitespace
      |>.reverse with
  | '-' :: rest => (digitsVal? rest).map (fun n => -(n : Int))
  | '+' :: rest => (digitsVal? rest).map (fun n => (n : Int))
  | l => (digitsVal? l).map (fun n => (n : Int))

/-- The error taxonomy of `exceptions.py`, as raised by `api.py`.  The raw
`requests.Response` argument of each exception is represented by the status
code of the response, the only part of it the embedded logic inspects. -/
inductive NassError where
  | unauthorized (message : String) (status : Nat)
  | invalidQuery (message : String) (status : Nat)
  | badMediaType (message : String) (status : Nat)
  | exceedsRowLimit (rows : Option Int) (message : String) (status : Nat)
  | exceptionList (errors : List Json) (status : Nat)
  | apiException (message : String) (status : Nat)
  | nassException (status : Nat)
  | unexpectedResponseData (data : Json) (status : Nat)
  | uncaughtTypeOrAttributeError

/-- `USDAApi._raise_for_error_message(errors, response)`.  `some e` means the
Python method raises `e`; `none` means it returns normally.  A single
non-string message makes `message in error_classes` / `message.startswith`
blow up with a `TypeError`/`AttributeError` that nothing catches; that
Python-level crash is the `uncaughtTypeOrAttributeError` value. -/
def raiseForErrorMessage (errors : Json) (status : Nat) : Option NassError :=
  match errors with
  | Json.arr msgs =>
      if 1 < msgs.length then some (NassError.exceptionList msgs status)
      else
        match msgs with
        | [Json.str message] =>
            if message = "unauthorized" then
              some (NassError.unauthorized message status)
            else if message = "bad request - invalid query" then
              some (NassError.invalidQuery message status)
            else if message = "bad request - unsupported media type" then
              some (NassError.badMediaType message status)
            else if pyStartsWith message "exceeds limit" then
              some (NassError.exceedsRowLimit
                ((splitSecondField message).bind pyInt?) message status)
            else some (NassError.apiException message status)
        | [_] => some NassError.uncaughtTypeOrAttributeError
        | _ => none
  | _ => none

/-- Steps 2 and 3 of `_handle_response_data`: the status-code check followed
by the `field_name` lookup. -/
def statusAndField (data : Json) (status : Nat) (fieldName : String) :
    Except NassError Json :=
  if status ≠ 200 then Except.error (NassError.nassException status)
  else
    match getKey data fieldName with
    | some v => Except.ok v
    | none => Except.error (NassError.unexpectedResponseData data status)

/-- `USDAApi._handle_response_data(data, response, field_name)`: the shared
decision procedure applied to every decoded body.  The `try data['error']`
with its `except (KeyError, TypeError): pass` is the `getKey` probe; when it
yields a value, `_raise_for_error_message` runs first and its raise (if any)
takes precedence over the status check. -/
def handleResponseData (data : Json) (status : Nat) (fieldName : String) :
    Except NassError Json :=
  match getKey data "error" with
  | some errors =>
      match raiseForErrorMessage errors status with
      | some e => Except.error e
      | none => statusAndField data status fieldName
  | none => statusAndField data status fieldName

/-- Python-level exceptions escaping `int(count)` in `count_query`. -/
inductive PyExn where
  | valueError
  | typeError

/-- An error escaping `count_query`: either a member of the structured
taxonomy raised while handling the response, or a plain Python exception
from the final `int(...)` conversion. -/
inductive CountError where
  | api (e : NassError)
  | py (e : PyExn)

/-- Model of Python `int(x)` on a JSON value: parses strings (`ValueError`
on failure), passes integers through, converts booleans, and raises
`TypeError` on anything else. -/
def pyIntOfJson : Json → Except PyExn Int
  | Json.str s =>
      match pyInt? s with
      | some n => Except.ok n
      | none => Except.error PyExn.valueError
  | Json.num n => Except.ok n
  | Json.bool b => Except.ok (if b then 1 else 0)
  | _ => Except.error PyExn.typeError

/-- `USDAApi.count_query`, from the decoded body onward: interpret the
response with field `"count"`, then apply `int(...)` to the result. -/
def countQuery (data : Json) (status : Nat) : Except CountError Int :=
  match handleResponseData data status "count" with
  | Except.error e => Except.error (CountError.api e)
  | Except.ok v =>
      match pyIntOfJson v with
      | Except.ok n => Except.ok n
      | Except.error e => Except.error (CountError.py e)

/-- Modelled from the spec: the Query builder (its module `query.py` is not
under `src/`).  A Query accumulates a parameter mapping, created empty by the
client factory and mutated only by the append-filter operation; `count()` and
`execute()` pass the accumulated mapping (`query.params`) to the client's
request procedure. -/
structure Query where
  params : List (String × Json)

/-- The parameter-mapping effect of `USDAApi._api_request`:
`params.update({'key': self.key})`.  Python dicts are passed by reference and
`update` mutates in place, so the returned mapping is at once the mapping
encoded into the outgoing query string and the caller's mapping after the
call returns. -/
def apiRequestParams (key : String) (params : List (String × Json)) :
    List (String × Json) :=
  dictUpdate params "key" (Json.str key)

/-- The state of a Query after a send (`count_query`/`call_query` pass
`query.params` straight into `_api_request`, which updates it in place). -/
def queryParamsAfterSend (key : String) (q : Query) : Query :=
  ⟨apiRequestParams key q.params⟩

/-- The row limit as the spec's sentence describes it: the integer parsed
from the substring of the message after the first `'='` character,
absent when there is no `'='` or the parse fails.  (Stated from the spec's
words, to be compared with the source's `message.split('=')[1]`.) -/
def specRowLimit (m : String) : Option Int :=
  match m.data.dropWhile (fun c => c ≠ '=') with
  | '=' :: rest => pyInt? (String.mk rest)
  | _ => none

/-- Updating a key and then looking it up yields the updated value. -/
theorem dictLookup_dictUpdate (d : List (String × Json)) (k : String) (v : Json) :
    dictLookup (dictUpdate d k v) k = some v := by
  induction d with
  | nil => simp [dictUpdate, dictLookup]
  | cons p rest ih =>
      by_cases h : p.1 = k
      · simp [dictUpdate, dictLookup, h]
      · simp [dictUpdate, dictLookup, h, ih]

/-- C1: whenever the decoded body is a mapping with an `error` key, the
error-translation step runs first and any error it raises is the outcome
regardless of the status code; in particular the body
`{"error": ["unauthorized"]}` raises Unauthorized at every status code,
never the generic non-200 error. -/
theorem error_translation_precedes_status_check :
    (∀ (data : Json) (status : Nat) (fieldName : String) (errs : Json) (e : NassError),
        getKey data "error" = some errs →
        raiseForErrorMessage errs status = some e →
        handleResponseData data status fieldName = Except.error e) ∧
    (∀ status : Nat,
        handleResponseData (Json.obj [("error", Json.arr [Json.str "unauthorized"])])
            status "data"
          = Except.error (NassError.unauthorized "unauthorized" status)) := by
  constructor
  · intro data status fieldName errs e h1 h2
    simp [handleResponseData, h1, h2]
  · intro status
    rfl

/-- C1 witness: the Unauthorized body at status 401. -/
theorem error_translation_precedes_status_check_witness :
    handleResponseData (Json.obj [("error", Json.arr [Json.str "unauthorized"])])
        401 "data"
      = Except.error (NassError.unauthorized "unauthorized" 401) :=
  error_translation_precedes_status_check.1 _ 401 "data" _ _ rfl rfl

/-- C2 counterexample: for the message `"exceeds limit=50=000"` the code
records limit 50 (the field between the first and second `=`), while the
claimed formula — parse the whole substring after the first `=` — fails and
prescribes an absent limit. -/
theorem row_limit_after_first_eq_refuted :
    raiseForErrorMessage (Json.arr [Json.str "exceeds limit=50=000"]) 200
      = some (NassError.exceedsRowLimit (some 50) "exceeds limit=50=000" 200) ∧
    specRowLimit "exceeds limit=50=000" = none ∧
    some (50 : Int) ≠ (none : Option Int) :=
  ⟨rfl, rfl, by simp⟩

/-- C2 amended: for every single-element error list whose message starts with
`"exceeds limit"`, the raised ExceedsRowLimit records the integer parsed from
the field of the message between the first and second `=` character (the
whole remainder when there is no second `=`), and records the limit as absent
when the message has no `=` or that parse fails. -/
theorem row_limit_from_second_split_field (message : String) (status : Nat)
    (h : pyStartsWith message "exceeds limit" = true) :
    raiseForErrorMessage (Json.arr [Json.str message]) status
      = some (NassError.exceedsRowLimit ((splitSecondField message).bind pyInt?)
          message status) := by
  have h1 : message ≠ "unauthorized" := by
    rintro rfl; exact absurd h (by decide)
  have h2 : message ≠ "bad request - invalid query" := by
    rintro rfl; exact absurd h (by decide)
  have h3 : message ≠ "bad request - unsupported media type" := by
    rintro rfl; exact absurd h (by decide)
  simp [raiseForErrorMessage, h1, h2, h3, h]

/-- C2 witness: `"exceeds limit=50000"` records limit 50000, and
`"exceeds limit=abc"` records an absent limit without crashing. -/
theorem row_limit_from_second_split_field_witness :
    raiseForErrorMessage (Json.arr [Json.str "exceeds limit=50000"]) 0
        = some (NassError.exceedsRowLimit (some 50000) "exceeds limit=50000" 0) ∧
    raiseForErrorMessage (Json.arr [Json.str "exceeds limit=abc"]) 0
        = some (NassError.exceedsRowLimit none "exceeds limit=abc" 0) :=
  ⟨row_limit_from_second_split_field "exceeds limit=50000" 0 (by decide),
   row_limit_from_second_split_field "exceeds limit=abc" 0 (by decide)⟩

/-- C3 counterexample: with an empty parameter mapping and credential "k",
the mapping observed by the caller after the call is `[("key", "k")]`, not
the original empty mapping — `params.update({'key': self.key})` mutates P. -/
theorem params_never_mutated_refuted :
    apiRequestParams "k" [] = [("key", Json.str "k")] ∧
    apiRequestParams "k" [] ≠ [] :=
  ⟨rfl, by simp [apiRequestParams, dictUpdate]⟩

/-- C3 amended: `fetch(P)`/`count(P)` attach the credential by inserting it
into P in place: the outgoing mapping (which is P itself after the call, and
the Query's accumulated mapping when P came from a Query) always contains the
credential under the reserved key `"key"`, and equals P updated at that key. -/
theorem credential_injected_by_in_place_update (key : String) (q : Query) :
    dictLookup (queryParamsAfterSend key q).params "key" = some (Json.str key) ∧
    (queryParamsAfterSend key q).params = dictUpdate q.params "key" (Json.str key) :=
  ⟨dictLookup_dictUpdate q.params "key" (Json.str key), rfl⟩

/-- C4: a single-element error list dispatches by the fixed exact-match table
(unauthorized / invalid query / unsupported media type), and any other single
message that does not start with `"exceeds limit"` raises the generic
ApiException carrying the literal message. -/
theorem single_message_dispatch_table :
    (∀ status : Nat,
        raiseForErrorMessage (Json.arr [Json.str "unauthorized"]) status
          = some (NassError.unauthorized "unauthorized" status)) ∧
    (∀ status : Nat,
        raiseForErrorMessage (Json.arr [Json.str "bad request - invalid query"]) status
          = some (NassError.invalidQuery "bad request - invalid query" status)) ∧
    (∀ status : Nat,
        raiseForErrorMessage
            (Json.arr [Json.str "bad request - unsupported media type"]) status
          = some (NassError.badMediaType
              "bad request - unsupported media type" status)) ∧
    (∀ (message : String) (status : Nat),
        message ≠ "unauthorized" →
        message ≠ "bad request - invalid query" →
        message ≠ "bad request - unsupported media type" →
        pyStartsWith message "exceeds limit" = false →
        raiseForErrorMessage (Json.arr [Json.str message]) status
          = some (NassError.apiException message status)) := by
  refine ⟨fun _ => rfl, fun _ => rfl, fun _ => rfl, ?_⟩
  intro message status h1 h2 h3 h4
  simp [raiseForErrorMessage, h1, h2, h3, h4]

/-- C4 witness: an unlisted message falls to the generic ApiException. -/
theorem single_message_dispatch_table_witness :
    raiseForErrorMessage (Json.arr [Json.str "mystery failure"]) 0
      = some (NassError.apiException "mystery failure" 0) :=
  single_message_dispatch_table.2.2.2 "mystery failure" 0
    (by decide) (by decide) (by decide) (by decide)

/-- C5: an error list with more than one entry raises ExceptionList carrying
exactly the full list in its original order; in particular the body
`{"error": ["a","b"]}` raises ExceptionList with `["a","b"]`. -/
theorem multiple_errors_carry_full_list :
    (∀ (msgs : List Json) (status : Nat), 1 < msgs.length →
        raiseForErrorMessage (Json.arr msgs) status
          = some (NassError.exceptionList msgs status)) ∧
    (∀ (status : Nat) (fieldName : String),
        handleResponseData
            (Json.obj [("error", Json.arr [Json.str "a", Json.str "b"])])
            status fieldName
          = Except.error
              (NassError.exceptionList [Json.str "a", Json.str "b"] status)) := by
  constructor
  · intro msgs status h
    simp [raiseForErrorMessage, h]
  · intro status fieldName
    rfl

/-- C5 witness: the two-message list at status 200. -/
theorem multiple_errors_carry_full_list_witness :
    raiseForErrorMessage (Json.arr [Json.str "a", Json.str "b"]) 200
      = some (NassError.exceptionList [Json.str "a", Json.str "b"] 200) :=
  multiple_errors_carry_full_list.1 [Json.str "a", Json.str "b"] 200 (by decide)

/-- C6: without an `error` key, a non-200 status raises the generic
NassException (never UnexpectedResponseData), while status 200 with the
requested field absent raises UnexpectedResponseData carrying the decoded
body and the response. -/
theorem no_error_key_status_then_shape :
    (∀ (data : Json) (status : Nat) (fieldName : String),
        getKey data "error" = none → status ≠ 200 →
        handleResponseData data status fieldName
          = Except.error (NassError.nassException status)) ∧
    (∀ (data : Json) (fieldName : String),
        getKey data "error" = none → getKey data fieldName = none →
        handleResponseData data 200 fieldName
          = Except.error (NassError.unexpectedResponseData data 200)) := by
  constructor
  · intro data status fieldName h1 h2
    simp [handleResponseData, statusAndField, h1, h2]
  · intro data fieldName h1 h2
    simp [handleResponseData, statusAndField, h1, h2]

/-- C6 witness: the empty body at status 500 and at status 200. -/
theorem no_error_key_status_then_shape_witness :
    handleResponseData (Json.obj []) 500 "data"
        = Except.error (NassError.nassException 500) ∧
    handleResponseData (Json.obj []) 200 "data"
        = Except.error (NassError.unexpectedResponseData (Json.obj []) 200) :=
  ⟨no_error_key_status_then_shape.1 (Json.obj []) 500 "data" rfl (by decide),
   no_error_key_status_then_shape.2 (Json.obj []) "data" rfl rfl⟩

/-- C7: a successful count request returns an integer, converting a
string-typed `count` field when necessary and passing an integer-typed one
through. -/
theorem count_returns_integer :
    (∀ (data : Json) (s : String) (n : Int),
        getKey data "error" = none →
        getKey data "count" = some (Json.str s) →
        pyInt? s = some n →
        countQuery data 200 = Except.ok n) ∧
    (∀ (data : Json) (n : Int),
        getKey data "error" = none →
        getKey data "count" = some (Json.num n) →
        countQuery data 200 = Except.ok n) := by
  constructor
  · intro data s n h1 h2 h3
    simp [countQuery, handleResponseData, statusAndField, pyIntOfJson, h1, h2, h3]
  · intro data n h1 h2
    simp [countQuery, handleResponseData, statusAndField, pyIntOfJson, h1, h2]

/-- C7 witness: status 200 with body containing count "141811" yields the
integer 141811. -/
theorem count_returns_integer_witness :
    countQuery (Json.obj [("count", Json.str "141811")]) 200 = Except.ok 141811 :=
  count_returns_integer.1 (Json.obj [("count", Json.str "141811")])
    "141811" 141811 rfl rfl rfl

/-- C8: an empty error list raises nothing in the translation step, and with
status 200 and the requested field present the field's value is returned. -/
theorem empty_error_list_falls_through :
    (∀ status : Nat, raiseForErrorMessage (Json.arr []) status = none) ∧
    (∀ (data : Json) (fieldName : String) (v : Json),
        getKey data "error" = some (Json.arr []) →
        getKey data fieldName = some v →
        handleResponseData data 200 fieldName = Except.ok v) := by
  constructor
  · intro status
    rfl
  · intro data fieldName v h1 h2
    simp [handleResponseData, raiseForErrorMessage, statusAndField, h1, h2]

/-- C8 witness: empty error list, status 200, field present. -/
theorem empty_error_list_falls_through_witness :
    handleResponseData (Json.obj [("error", Json.arr []), ("data", Json.num 7)])
        200 "data"
      = Except.ok (Json.num 7) :=
  empty_error_list_falls_through.2
    (Json.obj [("error", Json.arr []), ("data", Json.num 7)]) "data"
    (Json.num 7) rfl rfl

/-- C9: an `error` value that is not a list raises nothing in the translation
step, and a status-200 body with such a value and the requested field present
returns the field's value. -/
theorem non_list_error_value_ignored :
    (∀ (errs : Json) (status : Nat), (∀ l, errs ≠ Json.arr l) →
        raiseForErrorMessage errs status = none) ∧
    (∀ (data : Json) (fieldName : String) (es : String) (v : Json),
        getKey data "error" = some (Json.str es) →
        getKey data fieldName = some v →
        handleResponseData data 200 fieldName = Except.ok v) := by
  constructor
  · intro errs status h
    cases errs <;> first | rfl | exact absurd rfl (h _)
  · intro data fieldName es v h1 h2
    simp [handleResponseData, raiseForErrorMessage, statusAndField, h1, h2]

/-- C9 witness: `error` mapped to the string "unauthorized", status 200,
field present — the value is returned, no error raised. -/
theorem non_list_error_value_ignored_witness :
    handleResponseData
        (Json.obj [("error", Json.str "unauthorized"), ("data", Json.num 1)])
        200 "data"
      = Except.ok (Json.num 1) :=
  non_list_error_value_ignored.2
    (Json.obj [("error", Json.str "unauthorized"), ("data", Json.num 1)])
    "data" "unauthorized" (Json.num 1) rfl rfl

/-- C10: a successful-looking counts response whose `count` field is a string
that does not parse as an integer makes `count_query` fail with the plain
ValueError from `int(...)`, not with an error of the structured taxonomy. -/
theorem count_nonnumeric_string_raises_value_error :
    ∀ (data : Json) (s : String),
        getKey data "error" = none →
        getKey data "count" = some (Json.str s) →
        pyInt? s = none →
        countQuery data 200 = Except.error (CountError.py PyExn.valueError) := by
  intro data s h1 h2 h3
  simp [countQuery, handleResponseData, statusAndField, pyIntOfJson, h1, h2, h3]

/-- C10 witness: count "abc" at status 200 yields the ValueError case. -/
theorem count_nonnumeric_string_raises_value_error_witness :
    countQuery (Json.obj [("count", Json.str "abc")]) 200
      = Except.error (CountError.py PyExn.valueError) :=
  count_nonnumeric_string_raises_value_error
    (Json.obj [("count", Json.str "abc")]) "abc" rfl rfl rfl

end NassUsda
